import Mathlib

/-!
Shallow embedding of the core of the imm-dos-nx kernel (cooperative
scheduler, fork page-directory construction, tick/sleep bookkeeping,
device filesystem, pipes, file-handle layer, syscall dispatch), together
with proofs settling the frozen claims about it.

Machine integers are modelled as `Nat`; the kernel is uniprocessor and the
claims under study involve no wrap-around arithmetic.  Fallible Rust code
(`Result`/`Option`) is modelled with `Option`/`Except`; a call to
`Option::unwrap` on `None` (a kernel panic) is modelled by propagating
`none`.
-/

namespace ImmDos

/-! ## Process run state (src/kernel/src/process/process_state.rs) -/

/-- `RunState` from process_state.rs: the source enum has exactly the
variants `Running` and `Sleeping(usize)` (the `Blocked` variant is
commented out in the source). -/
inductive RunState where
  | running : RunState
  | sleeping : Nat → RunState
deriving DecidableEq, Repr

/-- `ProcessState::is_running` (process_state.rs:265): true exactly on
`Running`.  The scheduler's `can_resume` check on a task has the same
definition: a process is runnable iff its run state is `Running`. -/
def RunState.is_running : RunState → Bool
  | .running => true
  | _ => false

/-- `ProcessState::update_tick` (process_state.rs:250), with the constant
`time::MS_PER_TICK` generalized to the `delta_ms` parameter that
`update_timeouts` (switching.rs:196) passes down: a `Sleeping(duration)`
process becomes `Sleeping(duration - delta)` when `duration > delta` and
`Running` otherwise; any other state is left unchanged. -/
def update_tick (delta : Nat) : RunState → RunState
  | .sleeping duration =>
      if duration > delta then .sleeping (duration - delta) else .running
  | s => s

/-- `update_timeouts` applied repeatedly: the run state after a sequence of
ticks with the given `delta_ms` values. -/
def run_ticks (deltas : List Nat) (s : RunState) : RunState :=
  deltas.foldl (fun st d => update_tick d st) s

/-! ## Cooperative scheduler (src/kernel/src/task/switching.rs)

The task map is a `BTreeMap<ProcessID, Process>`; its iteration order is
ascending key order.  We embed it as an association list of
(process id, run state) pairs whose keys are strictly ascending. -/

/-- A task map: association list from process id to run state, in the
(ascending) order that `BTreeMap::iter` yields. -/
abbrev TaskMap := List (Nat × RunState)

/-- The inner loop of `find_next_running_process` (switching.rs:48):
`fr` carries the `first_runnable` accumulator.  Entries equal to the
current id are skipped; the first runnable entry is recorded; a runnable
entry with id greater than the current id returns immediately. -/
def find_next_aux (current : Nat) (fr : Option Nat) : List (Nat × RunState) → Option Nat
  | [] => fr
  | (id, st) :: rest =>
      if id = current then
        find_next_aux current fr rest
      else if st.is_running then
        let fr' := if fr.isNone then some id else fr
        if current < id then some id else find_next_aux current fr' rest
      else
        find_next_aux current fr rest

/-- `find_next_running_process` (switching.rs:48): scan the task map with
an empty `first_runnable` accumulator. -/
def find_next_running_process (current : Nat) (tasks : TaskMap) : Option Nat :=
  find_next_aux current none tasks

/-- `yield_coop` (switching.rs:27), viewed through its effect on
`CURRENT_ID`: `switch_to(id)` sets `CURRENT_ID` to `id`; if no candidate
was found, nothing happens and `CURRENT_ID` keeps its value. -/
def yield_coop (current : Nat) (tasks : TaskMap) : Nat :=
  match find_next_running_process current tasks with
  | some id => id
  | none => current

/-- Specification-side list of runnable ids other than the current one, in
task-map order. -/
def runnable_ids (current : Nat) (tasks : TaskMap) : List Nat :=
  (tasks.filter (fun p => p.1 ≠ current ∧ p.2.is_running)).map Prod.fst

/-- Specification-side list of runnable ids strictly greater than the
current one, in task-map order. -/
def runnable_gt (current : Nat) (tasks : TaskMap) : List Nat :=
  (runnable_ids current tasks).filter (fun i => current < i)

/-- Specification-side combinator: the first candidate when there is one,
otherwise the fallback (`first_runnable`). -/
def orElseOpt (a b : Option Nat) : Option Nat :=
  match a with
  | some x => some x
  | none => b

/-! ## Page tables and `fork_page_directory` (switching.rs:203)

A page-table / page-directory entry carries a physical address and a
present bit (`set_address` / `set_present` / `is_present` in the source's
page-table entry type).  A table is a map from slot index to entry; the
source's tables have 1024 slots, and all accesses in the embedded code use
indices below 1024. -/

/-- One 32-bit page directory/table entry, reduced to the fields the
source manipulates here: the physical address bits and the present bit. -/
structure Entry where
  address : Nat
  present : Bool
deriving DecidableEq, Repr

/-- A zeroed entry, as produced by `PageTable::zero`. -/
def Entry.zeroed : Entry := ⟨0, false⟩

/-- `entry.set_address(a)`: replace the address bits. -/
def Entry.set_address (e : Entry) (a : Nat) : Entry := { e with address := a }

/-- `entry.set_present()`: set the present bit. -/
def Entry.set_present (e : Entry) : Entry := { e with present := true }

/-- A page table / page directory: slot index to entry. -/
def PageTable := Nat → Entry

/-- Write one slot of a table (`get_mut(i)` followed by a mutation). -/
def PageTable.write (t : PageTable) (i : Nat) (e : Entry) : PageTable :=
  fun j => if j = i then e else t j

/-- `table.get_mut(i).set_address(a)` as a whole-table update. -/
def PageTable.write_address (t : PageTable) (i a : Nat) : PageTable :=
  t.write i ((t i).set_address a)

/-- `table.get_mut(i).set_present()` as a whole-table update. -/
def PageTable.write_present (t : PageTable) (i : Nat) : PageTable :=
  t.write i ((t i).set_present)

/-- `PageTable::zero`: every slot becomes the zeroed entry. -/
def PageTable.zeroed : PageTable := fun _ => Entry.zeroed

/-- Modelled from the spec: the physical frame allocator
(`memory::physical::allocate_frame`; the bitmap allocator's source is not
under src/).  §4.1: `allocate() → Frame | OutOfMemory`.  The allocator
state is abstracted to the list of free frame addresses it would hand out,
in order; allocation fails exactly when no frame is free. -/
def allocate_frame : List Nat → Option (Nat × List Nat)
  | [] => none
  | f :: rest => some (f, rest)

/-- The `for entry in 0x300..0x3ff` loop of `fork_page_directory`
(switching.rs:217): starting at slot `i` with `fuel` slots to go, copy the
address of every present entry of `current` into `d` and mark it present;
skip entries that are not present. -/
def copy_kernel_entries (current : PageTable) : Nat → Nat → PageTable → PageTable
  | _, 0, d => d
  | i, fuel + 1, d =>
      let d' :=
        if (current i).present then
          (d.write_address i (current i).address).write_present i
        else d
      copy_kernel_entries current (i + 1) fuel d'

/-- `fork_page_directory` (switching.rs:203): allocate a directory frame
(`unwrap` panics if allocation fails, modelled as `none`), zero the new
directory, self-map slot 1023 to the new frame, then copy the present
entries among slots 0x300..0x3fe from the current directory.  Returns the
new directory's contents, its frame address, and the remaining allocator
state. -/
def fork_page_directory (alloc : List Nat) (current : PageTable) :
    Option (PageTable × Nat × List Nat) :=
  match allocate_frame alloc with
  | none => none
  | some (directory_frame, alloc') =>
      let d0 := PageTable.zeroed
      let d1 := (d0.write_address 1023 directory_frame).write_present 1023
      let d2 := copy_kernel_entries current 0x300 0xff d1
      some (d2, directory_frame, alloc')

/-! ## Device filesystem (src/kernel/src/filesystems/dev/mod.rs)

Strings are byte lists.  `DevFileSystem` holds a handle allocator and a
vector mapping each local handle to the device number it was opened on.
The handle allocator (`files::handle::HandleAllocator`, not under src/) is
modelled from the spec, §3: handles are "minted by a per-filesystem
monotonic allocator" — a counter handing out consecutive values. -/

/-- `DevFileSystem` state: the next handle the monotonic allocator will
mint, and the `handle_to_device` vector (indexed by handle value). -/
structure DevFileSystem where
  next_handle : Nat
  handle_to_device : List (Option Nat)
deriving DecidableEq, Repr

/-- `DevFileSystem::get_device_for_handle` (dev/mod.rs:24): index the
vector with the handle value; a missing index or a `None` slot is `none`. -/
def DevFileSystem.get_device_for_handle (fs : DevFileSystem) (handle : Nat) : Option Nat :=
  match fs.handle_to_device.get? handle with
  | some o => o
  | none => none

/-- The environment the device filesystem runs against: the device
registry and the per-device drivers.  Modelled from the spec (the device
registry module is not under src/): §3 devices are
`{number, name: 8-byte blank-padded ASCII, driver}` with unique names,
and §6: "Names are compared after padding to 8 bytes with spaces".
`get_driver` returns, for a device number, the driver's `open` entry
point, reduced to whether the open of a given handle succeeds. -/
structure DevEnv where
  registry : List (List Nat × Nat)
  get_driver : Nat → Option (Nat → Bool)

/-- Modelled from the spec: `devices::get_device_number_by_name` (not
under src/) — exact match of an 8-byte blank-padded name against the
registry, returning the device number. -/
def get_device_number_by_name (registry : List (List Nat × Nat)) (name : List Nat) : Option Nat :=
  (registry.find? (fun p => p.1 = name)).map Prod.snd

/-- The ASCII codes the path logic cares about. -/
def backslashByte : Nat := 0x5c

/-- The name-building block of `DevFileSystem::open` (dev/mod.rs:42): an
8-byte buffer initialized to spaces (0x20), with the first
`min 8 (length bytes)` bytes copied from the path. -/
def pad_device_name (bytes : List Nat) : List Nat :=
  bytes.take 8 ++ List.replicate (8 - bytes.length) 0x20

/-- The leading-backslash strip of `DevFileSystem::open` (dev/mod.rs:35):
`&path[1..]` when the path starts with a backslash. -/
def strip_leading_backslash (path : List Nat) : List Nat :=
  match path with
  | c :: rest => if c = backslashByte then rest else path
  | [] => []

/-- `DevFileSystem::open` (dev/mod.rs:34): strip an optional leading
backslash, build the 8-byte blank-padded name from the first bytes of the
remaining path, look it up in the registry; on a hit, mint the next local
handle, run the device driver's open (failure propagates as the `?`
operator's early `Err` return), pad `handle_to_device` with `None` up to
the handle's index and record the device number there.  `none` is the
source's `Err(())`. -/
def dev_open (env : DevEnv) (fs : DevFileSystem) (path : List Nat) :
    Option (Nat × DevFileSystem) :=
  let local_path := strip_leading_backslash path
  let name := pad_device_name local_path
  match get_device_number_by_name env.registry name with
  | some number =>
      let handle := fs.next_handle
      match env.get_driver number with
      | none => none
      | some driver_open =>
          if driver_open handle then
            some (handle,
              { next_handle := handle + 1,
                handle_to_device :=
                  (fs.handle_to_device ++
                    List.replicate (handle - fs.handle_to_device.length) none) ++
                  [some number] })
          else none
  | none => none

/-- `DevFileSystem::dup` (dev/mod.rs:102): if the handle resolves to a
device number, mint a fresh local handle and push a mapping to the same
device number onto `handle_to_device` (no padding in this path). -/
def dev_dup (fs : DevFileSystem) (handle : Nat) : Option (Nat × DevFileSystem) :=
  match fs.get_device_for_handle handle with
  | some number =>
      let new_handle := fs.next_handle
      some (new_handle,
        { next_handle := new_handle + 1,
          handle_to_device := fs.handle_to_device ++ [some number] })
  | none => none

/-- Specification-side definition, following the spec's words for C9: the
first path component of a DEV path, i.e. the bytes after the optional
leading backslash up to the next backslash. -/
def spec_first_component (path : List Nat) : List Nat :=
  (strip_leading_backslash path).takeWhile (fun c => c ≠ backslashByte)

/-! ## Pipes

Modelled from the spec: the pipe buffer (`pipes::collection`, reached
through `PipeFileSystem::read`/`write` in pipes/fs.rs, is not under src/).
§3: "Bounded in-memory byte ring shared by two LocalHandles.  Writers may
produce up to capacity; readers consume FIFO." -/

/-- A pipe: FIFO byte buffer plus its capacity. -/
structure Pipe where
  buffer : List Nat
  capacity : Nat
deriving DecidableEq, Repr

/-- A pipe with nothing buffered, as `PIPES.create` returns. -/
def Pipe.empty (capacity : Nat) : Pipe := ⟨[], capacity⟩

/-- Modelled from the spec: writing `b` appends up to the free space,
returning the number of bytes accepted. -/
def Pipe.write_bytes (p : Pipe) (b : List Nat) : Pipe × Nat :=
  let n := min (p.capacity - p.buffer.length) b.length
  ({ p with buffer := p.buffer ++ b.take n }, n)

/-- Modelled from the spec: reading into a buffer of length `len` removes
and returns the first `min len (buffered)` bytes, FIFO. -/
def Pipe.read_bytes (p : Pipe) (len : Nat) : Pipe × List Nat :=
  ({ p with buffer := p.buffer.drop len }, p.buffer.take len)

/-! ## Per-process file handle map and `ProcessState::fork`

Modelled from the spec: `files::handle::FileHandleMap` (not under src/),
§4.5: the map takes a `FileHandle` to a `(drive, LocalHandle)` pair;
handles are allocated lowest-vacant-first; `dup(src, dst)` first closes
`dst` then binds it to the same pair as `src`.  The map is a vector
indexed by `FileHandle`. -/

/-- The per-process handle map: index = `FileHandle`, value = the
`(drive index, LocalHandle)` pair, `none` when the slot is closed. -/
abbrev FileHandleMap := List (Option (Nat × Nat))

/-- `FileHandleMap::new`: no open handles. -/
def FileHandleMap.fresh : FileHandleMap := []

/-- `FileHandleMap::get_drive_and_handle`: resolve a `FileHandle` to its
`(drive, local)` pair. -/
def FileHandleMap.get_drive_and_handle (m : FileHandleMap) (fh : Nat) : Option (Nat × Nat) :=
  match m.get? fh with
  | some o => o
  | none => none

/-- Store a pair at slot `i`, extending the vector with closed slots if
needed. -/
def FileHandleMap.store (m : FileHandleMap) (i : Nat) (pair : Nat × Nat) : FileHandleMap :=
  if i < m.length then m.set i (some pair)
  else m ++ List.replicate (i - m.length) none ++ [some pair]

/-- Modelled from the spec, §4.5: `dup(src, dst)` — bind `dst` to the same
`(drive, local)` pair `src` is bound to (closing whatever `dst` held);
an unbound `src` leaves the map unchanged. -/
def FileHandleMap.dup_handle (m : FileHandleMap) (src dst : Nat) : FileHandleMap :=
  match m.get_drive_and_handle src with
  | some pair => m.store dst pair
  | none => m

/-- The fields of `ProcessState` (process_state.rs:20) that the claims
about `ProcessState::fork` concern.  The page directory and memory-region
list are omitted: the claims under study do not mention them. -/
structure ProcessState where
  pid : Nat
  parent : Nat
  kernel_esp : Nat
  open_files : FileHandleMap
  run_state : RunState

/-- `memory::virt::STACK_START` as used by `ProcessState::fork`
(process_state.rs:107); its concrete value lives outside src/ and is
irrelevant to the claims, so it is kept as a named constant. -/
def STACK_START : Nat := 0xffbfe000

/-- `ProcessState::get_open_file_info` (process_state.rs:240): resolve a
file handle through the process's open-file map. -/
def ProcessState.get_open_file_info (p : ProcessState) (handle : Nat) : Option (Nat × Nat) :=
  p.open_files.get_drive_and_handle handle

/-- `ProcessState::fork` (process_state.rs:95): the child gets the new
pid, the forking process's pid as parent, a reset kernel stack pointer, a
brand-new (empty) file handle map, and run state `Running`.  The parent
(`&self`) is not modified. -/
def ProcessState.fork (p : ProcessState) (pid : Nat) : ProcessState :=
  { pid := pid,
    parent := p.pid,
    kernel_esp := STACK_START + 0x1000 - 4,
    open_files := FileHandleMap.fresh,
    run_state := RunState.running }

/-- The task-map insertion performed by the scheduler-level fork
(switching.rs:103, `map.insert(next_id, child)`), viewed as a map from pid
to process state. -/
def fork_into_map (m : Nat → Option ProcessState) (current : ProcessState) (next_id : Nat) :
    Nat → Option ProcessState :=
  fun i => if i = next_id then some (current.fork next_id) else m i

/-! ## Syscall dispatch (src/kernel/src/interrupts/syscall.rs)

`_syscall_inner` reads the method from the saved `eax` and writes results
back into the saved registers.  The in-kernel services it calls
(`syscalls::exec`, `syscalls::file`, not under src/) are abstracted into a
record of functions of the argument registers; each service result is
already coded as the u32 the arm stores (errors pre-mapped through
`to_code`).  Memory side effects (the pointers written by `wait_pid` and
`pipe`) are outside the registers-only view.  `exit` never returns, so the
dispatcher's result is an `Option`: `none` for the non-returning arm. -/

/-- The `SavedRegisters` struct (syscall.rs:7). -/
structure SavedRegisters where
  edi : Nat
  esi : Nat
  ebp : Nat
  ebx : Nat
  edx : Nat
  ecx : Nat
  eax : Nat
deriving DecidableEq, Repr

/-- Modelled from the spec: `SystemError::Unknown.to_code()`
(syscall/src/data.rs is not under src/).  §7: error codes are negative u32
values with the top bit set; the exact numeral is not fixed by src/, so
the canonical top-bit-set value stands in for it. -/
def unknownErrorCode : Nat := 0x80000000

/-- Modelled from the spec: `SystemError::UnsupportedCommand.to_code()`,
likewise a top-bit-set code distinct from `Unknown`'s. -/
def unsupportedErrorCode : Nat := 0x80000001

/-- The kernel services the dispatcher calls, abstracted over the argument
registers each arm passes.  Error-carrying results are `Except code value`
with the error already run through `to_code`; services whose arm maps
every error to a fixed constant use `Except Unit`. -/
structure Services where
  fork_result : Nat
  exec_path : Nat → Nat → Nat → Except Nat Nat
  get_pid : Nat
  wait_pid : Nat → Nat × Nat
  open_path : Nat → Except Nat Nat
  close : Nat → Except Nat Unit
  read : Nat → Nat → Nat → Except Nat Nat
  write : Nat → Nat → Nat → Except Nat Nat
  dup : Nat → Nat → Except Unit Nat
  ioctl : Nat → Nat → Nat → Except Unit Nat
  pipe : Except Unit (Nat × Nat)

/-- `_syscall_inner` (syscall.rs:19) restricted to its effect on the saved
registers: match on `eax` and write each arm's result back into `eax`.
Arms with empty bodies in the source (0x4, 0x7, 0x8, 0x14–0x1c,
0x30–0x33) fall through without touching the registers, as do `sleep` and
`yield`, whose service calls return no value.  The `close` arm reads its
handle operand from `registers.eax`, exactly as the source does. -/
def syscall_inner (svc : Services) (regs : SavedRegisters) : Option SavedRegisters :=
  match regs.eax with
  | 0x0 => none
  | 0x1 => some { regs with eax := svc.fork_result }
  | 0x2 =>
      let result := match svc.exec_path regs.ebx regs.ecx regs.edx with
        | .ok _ => 0
        | .error e => e
      some { regs with eax := result }
  | 0x3 => some { regs with eax := svc.get_pid }
  | 0x4 => some regs
  | 0x5 => some regs
  | 0x6 => some regs
  | 0x7 => some regs
  | 0x8 => some regs
  | 0x9 => some { regs with eax := (svc.wait_pid regs.ebx).fst }
  | 0x10 =>
      let result := match svc.open_path regs.ebx with
        | .ok handle => handle
        | .error e => e
      some { regs with eax := result }
  | 0x11 =>
      let handle := regs.eax
      let result := match svc.close handle with
        | .ok _ => 0
        | .error e => e
      some { regs with eax := result }
  | 0x12 =>
      let result := match svc.read regs.ebx regs.ecx regs.edx with
        | .ok bytes_read => bytes_read
        | .error e => e
      some { regs with eax := result }
  | 0x13 =>
      let result := match svc.write regs.ebx regs.ecx regs.edx with
        | .ok bytes_written => bytes_written
        | .error e => e
      some { regs with eax := result }
  | 0x14 => some regs
  | 0x15 => some regs
  | 0x16 => some regs
  | 0x17 => some regs
  | 0x18 => some regs
  | 0x19 => some regs
  | 0x1a => some regs
  | 0x1b => some regs
  | 0x1c => some regs
  | 0x1d =>
      let new_handle := match svc.dup regs.ebx regs.ecx with
        | .ok handle => handle
        | .error _ => 0xffffffff
      some { regs with eax := new_handle }
  | 0x1e =>
      let result := match svc.ioctl regs.ebx regs.ecx regs.edx with
        | .ok value => value
        | .error _ => unsupportedErrorCode
      some { regs with eax := result }
  | 0x1f =>
      let result := match svc.pipe with
        | .ok _ => 0
        | .error _ => 0xffffffff
      some { regs with eax := result }
  | 0x30 => some regs
  | 0x31 => some regs
  | 0x32 => some regs
  | 0x33 => some regs
  | 0xffff => some { regs with eax := 0 }
  | _ => some { regs with eax := unknownErrorCode }

/-- The method codes matched by a non-default arm of `_syscall_inner`. -/
def matched_methods : List Nat :=
  [0x0, 0x1, 0x2, 0x3, 0x4, 0x5, 0x6, 0x7, 0x8, 0x9,
   0x10, 0x11, 0x12, 0x13, 0x14, 0x15, 0x16, 0x17, 0x18, 0x19,
   0x1a, 0x1b, 0x1c, 0x1d, 0x1e, 0x1f, 0x30, 0x31, 0x32, 0x33, 0xffff]

/-- The reserved method codes whose arms have empty bodies. -/
def reserved_stub_methods : List Nat :=
  [0x4, 0x7, 0x8, 0x14, 0x15, 0x16, 0x17, 0x18, 0x19,
   0x1a, 0x1b, 0x1c, 0x30, 0x31, 0x32, 0x33]

/-! ## Theorems -/

/-- A running process is untouched by any sequence of ticks. -/
lemma run_ticks_running (ds : List Nat) : run_ticks ds RunState.running = RunState.running := by
  induction ds with
  | nil => rfl
  | cons d ds ih => simpa [run_ticks, update_tick] using ih

/-- Folding ticks over a sleeping process while the total stays below the
remaining duration just subtracts the total. -/
lemma run_ticks_sleeping_lt (ds : List Nat) :
    ∀ n, ds.sum < n → run_ticks ds (RunState.sleeping n) = RunState.sleeping (n - ds.sum) := by
  induction ds with
  | nil => intro n _; simp [run_ticks]
  | cons d ds ih =>
      intro n h
      have hsum : d + ds.sum < n := by simpa using h
      simp only [run_ticks, List.foldl_cons, update_tick, if_pos (by omega : n > d)]
      have := ih (n - d) (by omega)
      simpa [run_ticks, List.sum_cons, Nat.sub_sub] using this

/-- Once the tick total reaches the remaining duration, a sleeping process
has become running. -/
lemma run_ticks_sleeping_ge (ds : List Nat) :
    ∀ n, 0 < n → n ≤ ds.sum → run_ticks ds (RunState.sleeping n) = RunState.running := by
  induction ds with
  | nil => intro n h1 h2; simp at h2; omega
  | cons d ds ih =>
      intro n h1 h2
      by_cases hdn : d < n
      · simp only [run_ticks, List.foldl_cons, update_tick, if_pos (by omega : n > d)]
        exact ih (n - d) (by omega) (by simp at h2; omega)
      · simp only [run_ticks, List.foldl_cons, update_tick, if_neg (by omega : ¬ n > d)]
        exact run_ticks_running ds

/-- C4: a tick of `delta_ms` sends `Sleeping(n)` to `Sleeping(n - delta_ms)`
when `n > delta_ms` and to `Running` otherwise, leaves `Running` processes
unchanged, and therefore a sequence of ticks totalling `delta` leaves a
sleeping process at `Sleeping(n - delta)` while `delta < n` and at
`Running` once `delta ≥ n` (for a positive sleep duration). -/
theorem update_tick_sleep_spec (n : Nat) (ds : List Nat) :
    (∀ d, d < n → update_tick d (RunState.sleeping n) = RunState.sleeping (n - d))
    ∧ (∀ d, n ≤ d → update_tick d (RunState.sleeping n) = RunState.running)
    ∧ (∀ d, update_tick d RunState.running = RunState.running)
    ∧ (ds.sum < n → run_ticks ds (RunState.sleeping n) = RunState.sleeping (n - ds.sum))
    ∧ (0 < n → n ≤ ds.sum → run_ticks ds (RunState.sleeping n) = RunState.running) :=
  ⟨fun d hd => by simp [update_tick, hd],
   fun d hd => by simp [update_tick, Nat.not_lt.mpr hd],
   fun _ => rfl,
   run_ticks_sleeping_lt ds n,
   run_ticks_sleeping_ge ds n⟩

/-- C4 witness: a process sleeping 1000 ms still sleeps 900 ms after a
100 ms tick, and is running after ticks totalling 1100 ms. -/
theorem update_tick_sleep_spec_witness :
    run_ticks [100] (RunState.sleeping 1000) = RunState.sleeping 900
    ∧ run_ticks [300, 300, 200, 300] (RunState.sleeping 1000) = RunState.running :=
  ⟨(update_tick_sleep_spec 1000 [100]).2.2.2.1 (by decide),
   (update_tick_sleep_spec 1000 [300, 300, 200, 300]).2.2.2.2 (by decide) (by decide)⟩

/-- C5: writing a byte sequence no longer than the capacity into an empty
pipe and then reading back a buffer of the same length accepts every byte
and returns exactly those bytes, in order. -/
theorem pipe_write_read_roundtrip (b : List Nat) (cap : Nat) (h : b.length ≤ cap) :
    ((Pipe.empty cap).write_bytes b).snd = b.length
    ∧ (((Pipe.empty cap).write_bytes b).fst.read_bytes b.length).snd = b
    ∧ (((Pipe.empty cap).write_bytes b).fst.read_bytes b.length).snd.length = b.length := by
  refine ⟨?_, ?_, ?_⟩ <;>
    simp [Pipe.empty, Pipe.write_bytes, Pipe.read_bytes, Nat.sub_zero,
      min_eq_right h, List.take_length]

/-- C5 witness: the 13-byte sequence "TEST THE PIPE" (the kernel's own
boot-time pipe test) round-trips through a pipe of capacity 0x200. -/
theorem pipe_write_read_roundtrip_witness :
    (((Pipe.empty 0x200).write_bytes
        [84, 69, 83, 84, 32, 84, 72, 69, 32, 80, 73, 80, 69]).fst.read_bytes 13).snd
      = [84, 69, 83, 84, 32, 84, 72, 69, 32, 80, 73, 80, 69] :=
  (pipe_write_read_roundtrip [84, 69, 83, 84, 32, 84, 72, 69, 32, 80, 73, 80, 69]
    0x200 (by decide)).2.1

/-- C2 counterexample: with every physical frame allocated, the very first
allocation inside `fork_page_directory` fails and the source `unwrap`s the
failure — the kernel panics (modelled `none`) instead of returning an
error code to the caller, contradicting the claim that fork surfaces an
error and releases the frames it took. -/
theorem fork_page_directory_oom_panics :
    fork_page_directory [] PageTable.zeroed = none := rfl

/-- C2 amended: whenever frame allocation fails, `fork_page_directory`
does not return at all (the failed allocation is `unwrap`ped, panicking
the kernel); no error code reaches the caller and no release path runs. -/
theorem fork_page_directory_alloc_failure (alloc : List Nat) (current : PageTable)
    (h : allocate_frame alloc = none) :
    fork_page_directory alloc current = none := by
  unfold fork_page_directory
  rw [h]

/-- C2 witness for the amended claim, at the empty allocator. -/
theorem fork_page_directory_alloc_failure_witness :
    fork_page_directory [] PageTable.zeroed = none :=
  fork_page_directory_alloc_failure [] PageTable.zeroed rfl

/-- Slot-level characterization of the kernel-window copy loop: slots in
the copied window take the parent's address with the present bit set when
the parent slot is present, and every other slot keeps its prior value. -/
lemma copy_kernel_entries_spec (current : PageTable) :
    ∀ (fuel i : Nat) (d : PageTable) (j : Nat),
      copy_kernel_entries current i fuel d j =
        if i ≤ j ∧ j < i + fuel ∧ (current j).present
        then ⟨(current j).address, true⟩ else d j := by
  intro fuel
  induction fuel with
  | zero =>
      intro i d j
      rw [copy_kernel_entries, if_neg (fun hc => by omega)]
  | succ fuel ih =>
      intro i d j
      simp only [copy_kernel_entries]
      rw [ih]
      by_cases hij : j = i
      · subst hij
        rw [if_neg (fun hc => absurd hc.1 (by omega))]
        by_cases hp : (current j).present
        · have hc : j ≤ j ∧ j < j + (fuel + 1) ∧ (current j).present = true :=
            ⟨Nat.le_refl j, by omega, hp⟩
          rw [if_pos hc]
          simp [hp, PageTable.write_present, PageTable.write_address, PageTable.write,
            Entry.set_address, Entry.set_present]
        · rw [if_neg (fun hc => by simp [hp] at hc)]
          simp [hp]
      · have hd' :
            (if (current i).present
              then (d.write_address i (current i).address).write_present i
              else d) j = d j := by
          by_cases hp : (current i).present
          · simp [hp, PageTable.write_present, PageTable.write_address, PageTable.write, hij]
          · simp [hp]
        rw [hd']
        have hcond : (i + 1 ≤ j ∧ j < i + 1 + fuel ∧ (current j).present = true)
            ↔ (i ≤ j ∧ j < i + (fuel + 1) ∧ (current j).present = true) := by
          constructor
          · rintro ⟨a, b, c⟩; exact ⟨by omega, by omega, c⟩
          · rintro ⟨a, b, c⟩
            refine ⟨?_, by omega, c⟩
            rcases Nat.lt_or_ge i j with hlt | hge
            · omega
            · exact absurd (Nat.le_antisymm hge a) hij
        rw [if_congr hcond rfl rfl]

/-- C3: a directory produced by `fork_page_directory` agrees with the
current (parent) directory on every slot 0x300–0x3FE — so the kernel
window's page tables are shared — and its slot 1023 is present and points
at the directory's own frame (the self-map).  The parent hypothesis
`hclean` states that its non-present kernel-window slots are zeroed, which
holds of every directory the kernel builds (they start from
`PageTable::zero` and only present entries are ever copied). -/
theorem fork_page_directory_kernel_window
    (alloc : List Nat) (current d : PageTable) (frame : Nat) (rest : List Nat)
    (hclean : ∀ i, 0x300 ≤ i → i ≤ 0x3fe → (current i).present = false →
      current i = Entry.zeroed)
    (h : fork_page_directory alloc current = some (d, frame, rest)) :
    (∀ i, 0x300 ≤ i → i ≤ 0x3fe → d i = current i)
    ∧ d 1023 = ⟨frame, true⟩ := by
  match alloc with
  | [] => exact absurd h (by simp [fork_page_directory, allocate_frame])
  | f :: tl =>
      have h' : copy_kernel_entries current 0x300 0xff
            ((PageTable.zeroed.write_address 1023 f).write_present 1023) = d
          ∧ f = frame ∧ tl = rest := by
        simpa [fork_page_directory, allocate_frame] using h
      obtain ⟨hd, hf, hr⟩ := h'
      subst hd hf hr
      constructor
      · intro i h1 h2
        rw [copy_kernel_entries_spec]
        by_cases hp : (current i).present
        · rw [if_pos ⟨h1, by omega, hp⟩]
          cases hcur : current i with
          | mk a p => simp_all
        · rw [if_neg (fun hc => by simp [hp] at hc)]
          rw [hclean i h1 h2 (by simpa using hp)]
          have h1023 : i ≠ 1023 := by omega
          simp [PageTable.write_present, PageTable.write_address, PageTable.write,
            PageTable.zeroed, h1023]
      · rw [copy_kernel_entries_spec]
        rw [if_neg (fun hc => absurd hc.2.1 (by omega))]
        simp [PageTable.write_present, PageTable.write_address, PageTable.write,
          PageTable.zeroed, Entry.zeroed, Entry.set_address, Entry.set_present]

/-- A concrete parent directory: one kernel-window table at slot 0x300,
everything else zeroed. -/
def c3parent : PageTable := fun i => if i = 0x300 then ⟨0x1234000, true⟩ else Entry.zeroed

/-- The directory `fork_page_directory` builds from `c3parent` when the
allocator hands out frame 0x5000. -/
def c3child : PageTable :=
  copy_kernel_entries c3parent 0x300 0xff
    ((PageTable.zeroed.write_address 1023 0x5000).write_present 1023)

/-- C3 witness: forking `c3parent` with frame 0x5000 shares slot 0x300 and
self-maps slot 1023. -/
theorem fork_page_directory_kernel_window_witness :
    c3child 0x300 = c3parent 0x300 ∧ c3child 1023 = ⟨0x5000, true⟩ := by
  have hclean : ∀ i, 0x300 ≤ i → i ≤ 0x3fe → (c3parent i).present = false →
      c3parent i = Entry.zeroed := by
    intro i _ _ hp
    by_cases hi : i = 0x300
    · simp [c3parent, hi] at hp
    · simp [c3parent, hi]
  have H := fork_page_directory_kernel_window [0x5000] c3parent c3child 0x5000 []
    hclean rfl
  exact ⟨H.1 0x300 (by decide) (by decide), H.2⟩

/-- C10: the child produced by `ProcessState::fork(pid)` starts with an
empty open-file map (every file handle resolves to `None`), run state
`Running`, and the forking process's id as its parent; inserting the child
into the task map leaves every other process's entry — in particular the
parent's — untouched. -/
theorem process_fork_child_state (p : ProcessState) (pid : Nat)
    (m : Nat → Option ProcessState) :
    (∀ handle, (p.fork pid).get_open_file_info handle = none)
    ∧ (p.fork pid).run_state = RunState.running
    ∧ (p.fork pid).parent = p.pid
    ∧ (p.fork pid).pid = pid
    ∧ (∀ i, i ≠ pid → fork_into_map m p pid i = m i) := by
  refine ⟨?_, rfl, rfl, rfl, ?_⟩
  · intro handle
    simp [ProcessState.fork, ProcessState.get_open_file_info,
      FileHandleMap.get_drive_and_handle, FileHandleMap.fresh]
  · intro i hi
    simp [fork_into_map, hi]

/-- C10 witness: a concrete parent with two open handles forks into a
child with no open handles, running, and parented to pid 3. -/
theorem process_fork_child_state_witness :
    (ProcessState.fork
        ⟨3, 1, 0, [some (1, 4), some (0, 2)], RunState.running⟩ 9).get_open_file_info 0 = none
    ∧ (ProcessState.fork
        ⟨3, 1, 0, [some (1, 4), some (0, 2)], RunState.running⟩ 9).run_state
        = RunState.running
    ∧ (ProcessState.fork
        ⟨3, 1, 0, [some (1, 4), some (0, 2)], RunState.running⟩ 9).parent = 3 := by
  have H := process_fork_child_state
    ⟨3, 1, 0, [some (1, 4), some (0, 2)], RunState.running⟩ 9 (fun _ => none)
  exact ⟨H.1 0, H.2.1, H.2.2.1⟩

/-- A resolving device handle is an in-bounds `Some` slot of the
`handle_to_device` vector. -/
lemma dev_get_some (fs : DevFileSystem) (src n : Nat)
    (h : fs.get_device_for_handle src = some n) :
    fs.handle_to_device.get? src = some (some n) := by
  unfold DevFileSystem.get_device_for_handle at h
  cases hg : fs.handle_to_device.get? src with
  | none => rw [hg] at h; exact absurd h (by simp)
  | some o => rw [hg] at h; simp only [] at h; rw [h]

/-- Indexing a one-element extension at the old length yields the new
element. -/
lemma get_concat_len {α : Type} (l : List α) (x : α) : (l ++ [x]).get? l.length = some x := by
  simp [List.get?_eq_getElem?]

/-- `FileHandleMap.store` really stores: the stored slot resolves to the
stored pair. -/
lemma store_get (m : FileHandleMap) (i : Nat) (pair : Nat × Nat) :
    (m.store i pair).get? i = some (some pair) := by
  unfold FileHandleMap.store
  by_cases hlt : i < m.length
  · rw [if_pos hlt]
    simp [List.get?_eq_getElem?, hlt]
  · rw [if_neg hlt]
    have hlen : (m ++ List.replicate (i - m.length) (none : Option (Nat × Nat))).length = i := by
      simp; omega
    have hc := get_concat_len
      (m ++ List.replicate (i - m.length) (none : Option (Nat × Nat))) (some pair)
    rw [hlen] at hc
    exact hc

/-- C8: a successful `dup` preserves the binding.  In the DEV filesystem
(`DevFileSystem::dup`), the duplicate is the freshly minted local handle
and resolves to the same device number as the source handle, which itself
still resolves to that number; and at the per-process handle layer,
`dup(src, dst)` leaves `dst` bound to the very `(drive, LocalHandle)` pair
`src` is bound to, so reads and writes through `dst` are routed to the
same filesystem object as through `src`.  The hypothesis `hwf` says the
device vector has exactly one slot per minted handle, which holds along
every open/dup sequence. -/
theorem dup_preserves_binding
    (fs fs2 : DevFileSystem) (src new_h n : Nat)
    (hwf : fs.handle_to_device.length = fs.next_handle)
    (hsrc : fs.get_device_for_handle src = some n)
    (hdup : dev_dup fs src = some (new_h, fs2))
    (m : FileHandleMap) (fsrc fdst : Nat) (pair : Nat × Nat)
    (hm : m.get_drive_and_handle fsrc = some pair) :
    new_h = fs.next_handle
    ∧ fs2.get_device_for_handle new_h = some n
    ∧ fs2.get_device_for_handle src = some n
    ∧ (m.dup_handle fsrc fdst).get_drive_and_handle fdst = some pair := by
  have hget := dev_get_some fs src n hsrc
  have hsrc_lt : src < fs.handle_to_device.length := by
    have := List.get?_eq_some.mp hget
    exact this.1
  simp only [dev_dup, hsrc] at hdup
  injection hdup with hp
  obtain ⟨hh, hfs2⟩ : fs.next_handle = new_h
      ∧ ({ next_handle := fs.next_handle + 1,
           handle_to_device := fs.handle_to_device ++ [some n] } : DevFileSystem) = fs2 :=
    ⟨congrArg Prod.fst hp, congrArg Prod.snd hp⟩
  subst hh hfs2
  refine ⟨rfl, ?_, ?_, ?_⟩
  · unfold DevFileSystem.get_device_for_handle
    rw [← hwf]
    simp [List.get?_eq_getElem?]
  · unfold DevFileSystem.get_device_for_handle
    rw [List.get?_eq_getElem?, List.getElem?_append_left hsrc_lt, ← List.get?_eq_getElem?,
      hget]
  · unfold FileHandleMap.dup_handle
    rw [hm]
    unfold FileHandleMap.get_drive_and_handle
    rw [store_get]

/-- C8 witness: duplicating handle 1 (device 7) in a two-handle DEV state
mints handle 2 bound to device 7, and a handle-map dup of file handle 0 to
file handle 3 leaves 3 bound to the same `(drive 1, local 5)` pair. -/
theorem dup_preserves_binding_witness :
    (2 : Nat) = 2
    ∧ DevFileSystem.get_device_for_handle ⟨3, [some 7, some 7, some 7]⟩ 2 = some 7
    ∧ DevFileSystem.get_device_for_handle ⟨3, [some 7, some 7, some 7]⟩ 1 = some 7
    ∧ FileHandleMap.get_drive_and_handle
        (FileHandleMap.dup_handle [some (1, 5)] 0 3) 3 = some (1, 5) :=
  dup_preserves_binding ⟨2, [some 7, some 7]⟩ ⟨3, [some 7, some 7, some 7]⟩ 1 2 7
    rfl rfl rfl [some (1, 5)] 0 3 (1, 5) rfl

/-- The 8-byte blank-padded registry name of the ZERO device. -/
def zeroName : List Nat := [90, 69, 82, 79, 32, 32, 32, 32]

/-- A device environment with the ZERO device registered as number 3 and a
driver whose open always succeeds. -/
def c9env : DevEnv :=
  { registry := [(zeroName, 3)], get_driver := fun _ => some (fun _ => true) }

/-- C9 counterexample: for the path `\ZERO\X`, the first path component is
`ZERO`, whose blank-padded name is registered — the claim demands a
successful open — yet `DevFileSystem::open` fails, because it compares the
first 8 bytes of the whole remaining path (`ZERO\X` padded to
`ZERO\X  `), separator byte included, against the registry. -/
theorem dev_open_first_component_mismatch :
    get_device_number_by_name c9env.registry
      (pad_device_name (spec_first_component [92, 90, 69, 82, 79, 92, 88])) = some 3
    ∧ dev_open c9env ⟨0, []⟩ [92, 90, 69, 82, 79, 92, 88] = none := by
  constructor <;> decide

/-- C9 amended: after stripping an optional leading backslash,
`DevFileSystem::open` matches the first `min 8 |path|` bytes of the whole
remaining path — padded with ASCII spaces to exactly 8 bytes — against the
registered device names (so the backslash of a further component is
compared too); on a match, provided the device's driver is registered and
accepts the open, it returns the freshly minted next local handle mapped
to that device's number, and when the padded bytes match no device name it
returns an error. -/
theorem dev_open_whole_path_match
    (env : DevEnv) (fs : DevFileSystem) (path : List Nat) (num : Nat)
    (dopen : Nat → Bool)
    (hwf : fs.handle_to_device.length ≤ fs.next_handle)
    (hname : get_device_number_by_name env.registry
        (pad_device_name (strip_leading_backslash path)) = some num)
    (hdrv : env.get_driver num = some dopen)
    (hopen : dopen fs.next_handle = true) :
    dev_open env fs path = some (fs.next_handle,
      { next_handle := fs.next_handle + 1,
        handle_to_device :=
          (fs.handle_to_device ++
            List.replicate (fs.next_handle - fs.handle_to_device.length) none) ++ [some num] })
    ∧ DevFileSystem.get_device_for_handle
        { next_handle := fs.next_handle + 1,
          handle_to_device :=
            (fs.handle_to_device ++
              List.replicate (fs.next_handle - fs.handle_to_device.length) none) ++
            [some num] }
        fs.next_handle = some num
    ∧ fs.get_device_for_handle fs.next_handle = none
    ∧ (∀ path2, get_device_number_by_name env.registry
        (pad_device_name (strip_leading_backslash path2)) = none →
        dev_open env fs path2 = none) := by
  refine ⟨?_, ?_, ?_, ?_⟩
  · simp only [dev_open, hname, hdrv, hopen, if_true]
  · unfold DevFileSystem.get_device_for_handle
    have hlen : (fs.handle_to_device ++
        List.replicate (fs.next_handle - fs.handle_to_device.length)
          (none : Option Nat)).length = fs.next_handle := by
      simp; omega
    have hc := get_concat_len
      (fs.handle_to_device ++
        List.replicate (fs.next_handle - fs.handle_to_device.length) (none : Option Nat))
      (some num)
    rw [hlen] at hc
    rw [hc]
  · unfold DevFileSystem.get_device_for_handle
    rw [List.get?_len_le hwf]
  · intro path2 hnone
    simp only [dev_open, hnone]

/-- C9 amended-claim witness: opening `\ZERO` on a fresh DEV filesystem in
`c9env` yields local handle 0 mapped to device 3. -/
theorem dev_open_whole_path_match_witness :
    dev_open c9env ⟨0, []⟩ [92, 90, 69, 82, 79]
      = some (0, { next_handle := 1,
                   handle_to_device := (([] : List (Option Nat)) ++
                     List.replicate 0 none) ++ [some 3] })
    ∧ DevFileSystem.get_device_for_handle
        { next_handle := 1,
          handle_to_device := (([] : List (Option Nat)) ++ List.replicate 0 none) ++ [some 3] }
        0 = some 3 :=
  ⟨(dev_open_whole_path_match c9env ⟨0, []⟩ [92, 90, 69, 82, 79] 3 (fun _ => true)
      (by decide) (by decide) rfl rfl).1,
   (dev_open_whole_path_match c9env ⟨0, []⟩ [92, 90, 69, 82, 79] 3 (fun _ => true)
      (by decide) (by decide) rfl rfl).2.1⟩

/-- A concrete service pack in which closing handle 3 succeeds and closing
any other handle fails with code 0x80000005. -/
def c6svc : Services :=
  { fork_result := 0,
    exec_path := fun _ _ _ => .ok 0,
    get_pid := 0,
    wait_pid := fun _ => (0, 0),
    open_path := fun _ => .ok 0,
    close := fun handle => if handle = 3 then .ok () else .error 0x80000005,
    read := fun _ _ _ => .ok 0,
    write := fun _ _ _ => .ok 0,
    dup := fun _ _ => .ok 0,
    ioctl := fun _ _ _ => .ok 0,
    pipe := .ok (0, 0) }

/-- C6: the close arm reads its handle operand from register A instead of
register B.  With method 0x11 in A and open handle 3 in B — a close that
the kernel's own register convention says should succeed with 0 — the
dispatcher instead closes handle 0x11 (= 17) and stores that call's error
code, ignoring register B entirely. -/
theorem close_arm_reads_register_a :
    syscall_inner c6svc ⟨0, 0, 0, 3, 0, 0, 0x11⟩ = some ⟨0, 0, 0, 3, 0, 0, 0x80000005⟩
    ∧ c6svc.close 3 = .ok ()
    ∧ c6svc.close 0x11 = .error 0x80000005 :=
  ⟨rfl, rfl, rfl⟩

/-- A trivial service pack for exercising the dispatcher's reserved and
default arms, which never consult the services. -/
def c7svc : Services :=
  { fork_result := 0,
    exec_path := fun _ _ _ => .ok 0,
    get_pid := 0,
    wait_pid := fun _ => (0, 0),
    open_path := fun _ => .ok 0,
    close := fun _ => .ok (),
    read := fun _ _ _ => .ok 0,
    write := fun _ _ _ => .ok 0,
    dup := fun _ _ => .ok 0,
    ioctl := fun _ _ _ => .ok 0,
    pipe := .ok (0, 0) }

/-- C7 counterexample: the reserved method 0x04 (`brk`) does not return
the `Unknown` error code — its stub arm leaves every register unchanged,
so register A still holds 4, whose top bit is clear, where the claim
demands a negative-coded (top-bit-set) `Unknown` value. -/
theorem reserved_method_not_unknown :
    syscall_inner c7svc ⟨0, 0, 0, 0, 0, 0, 0x4⟩ = some ⟨0, 0, 0, 0, 0, 0, 0x4⟩
    ∧ (0x4 : Nat) < 2 ^ 31 := by
  constructor <;> decide

/-- C7 amended: a method code matched by no arm of the dispatch table at
all falls to the default arm and returns the `Unknown` error code (top bit
set) in register A; the reserved codes (0x04 brk, 0x07 raise, 0x08
send_signal, 0x14–0x1c, 0x30–0x33), by contrast, have stub arms with empty
bodies that return with every saved register — register A included —
unchanged. -/
theorem unmatched_method_returns_unknown (svc : Services) (regs : SavedRegisters) :
    (regs.eax ∉ matched_methods →
      syscall_inner svc regs = some { regs with eax := unknownErrorCode }
      ∧ 2 ^ 31 ≤ unknownErrorCode)
    ∧ (regs.eax ∈ reserved_stub_methods → syscall_inner svc regs = some regs) := by
  constructor
  · intro h
    refine ⟨?_, by decide⟩
    unfold syscall_inner
    split <;> rename_i heq
    all_goals try (exact absurd (by rw [heq]; decide) h)
    rfl
  · intro h
    simp only [reserved_stub_methods, List.mem_cons, List.not_mem_nil, or_false] at h
    rcases h with h | h | h | h | h | h | h | h | h | h | h | h | h | h | h | h <;>
      simp [syscall_inner, h]

/-- C7 amended-claim witness: method 0xA (not in the table) yields the
`Unknown` code, while reserved method 0x14 (`unlink`) returns with the
registers untouched. -/
theorem unmatched_method_returns_unknown_witness :
    (syscall_inner c7svc ⟨0, 0, 0, 0, 0, 0, 0xA⟩
        = some ⟨0, 0, 0, 0, 0, 0, unknownErrorCode⟩
      ∧ 2 ^ 31 ≤ unknownErrorCode)
    ∧ syscall_inner c7svc ⟨0, 0, 0, 9, 8, 7, 0x14⟩ = some ⟨0, 0, 0, 9, 8, 7, 0x14⟩ :=
  ⟨(unmatched_method_returns_unknown c7svc ⟨0, 0, 0, 0, 0, 0, 0xA⟩).1 (by decide),
   (unmatched_method_returns_unknown c7svc ⟨0, 0, 0, 9, 8, 7, 0x14⟩).2 (by decide)⟩

/-- With a `first_runnable` already recorded, the scan returns the first
runnable id greater than the current one, falling back to the recorded
id: once the accumulator is set, it is never replaced. -/
lemma find_next_aux_some (current : Nat) :
    ∀ (l : List (Nat × RunState)) (a : Nat),
      find_next_aux current (some a) l = orElseOpt (runnable_gt current l).head? (some a) := by
  intro l
  induction l with
  | nil => intro a; simp [find_next_aux, runnable_gt, runnable_ids, orElseOpt]
  | cons p rest ih =>
      intro a
      obtain ⟨id, st⟩ := p
      by_cases hid : id = current
      · simpa [find_next_aux, hid, runnable_gt, runnable_ids] using ih a
      · by_cases hrun : st.is_running
        · by_cases hlt : current < id
          · simp [find_next_aux, hid, hrun, hlt, runnable_gt, runnable_ids, orElseOpt]
          · simpa [find_next_aux, hid, hrun, hlt, runnable_gt, runnable_ids] using ih a
        · simpa [find_next_aux, hid, hrun, runnable_gt, runnable_ids] using ih a

/-- The full scan: the first runnable id greater than the current one if
any, otherwise the first runnable id encountered at all. -/
lemma find_next_aux_none (current : Nat) :
    ∀ (l : List (Nat × RunState)),
      find_next_aux current none l
        = orElseOpt (runnable_gt current l).head? (runnable_ids current l).head? := by
  intro l
  induction l with
  | nil => simp [find_next_aux, runnable_gt, runnable_ids, orElseOpt]
  | cons p rest ih =>
      obtain ⟨id, st⟩ := p
      by_cases hid : id = current
      · simpa [find_next_aux, hid, runnable_gt, runnable_ids] using ih
      · by_cases hrun : st.is_running
        · by_cases hlt : current < id
          · simp [find_next_aux, hid, hrun, hlt, runnable_gt, runnable_ids, orElseOpt]
          · simp [find_next_aux, hid, hrun, hlt, runnable_gt, runnable_ids, orElseOpt,
              find_next_aux_some]
        · simpa [find_next_aux, hid, hrun, runnable_gt, runnable_ids] using ih

/-- The head of a list is a member. -/
lemma head_mem_of_head? {l : List Nat} {g : Nat} (h : l.head? = some g) : g ∈ l := by
  cases l with
  | nil => simp at h
  | cons a t => simp at h; simp [h]

/-- In a strictly ascending list, the head is the minimum. -/
lemma head_min_of_sorted {l : List Nat} (hs : l.Pairwise (· < ·)) {g : Nat}
    (h : l.head? = some g) : ∀ x ∈ l, g ≤ x := by
  cases l with
  | nil => simp at h
  | cons a t =>
      simp at h
      subst h
      intro x hx
      rcases List.mem_cons.mp hx with rfl | hx
      · exact Nat.le_refl x
      · exact Nat.le_of_lt ((List.pairwise_cons.mp hs).1 x hx)

/-- Filtering and projecting a task map sorted by id leaves a strictly
ascending id list. -/
lemma runnable_ids_sorted (current : Nat) (tasks : TaskMap)
    (hs : tasks.Pairwise (fun a b => a.1 < b.1)) :
    (runnable_ids current tasks).Pairwise (· < ·) :=
  (hs.filter _).map Prod.fst (fun _ _ h => h)

/-- C1: with the task map iterated in ascending id order, `yield_coop`'s
candidate search considers exactly the ids of `Running` processes other
than the current one; it returns the least such id strictly greater than
`CURRENT_ID` when one exists, otherwise the least runnable id overall
(wrap-around), and when no other process is runnable at all it returns
nothing and `yield_coop` leaves `CURRENT_ID` unchanged. -/
theorem yield_coop_picks_next_runnable (current : Nat) (tasks : TaskMap)
    (hsorted : tasks.Pairwise (fun a b => a.1 < b.1)) :
    (∀ i, i ∈ runnable_ids current tasks ↔
      (i ≠ current ∧ ∃ st, (i, st) ∈ tasks ∧ st.is_running))
    ∧ find_next_running_process current tasks
        = orElseOpt (runnable_gt current tasks).head? (runnable_ids current tasks).head?
    ∧ (∀ g, (runnable_gt current tasks).head? = some g →
        g ∈ runnable_gt current tasks ∧ ∀ x ∈ runnable_gt current tasks, g ≤ x)
    ∧ (∀ r, (runnable_ids current tasks).head? = some r →
        r ∈ runnable_ids current tasks ∧ ∀ x ∈ runnable_ids current tasks, r ≤ x)
    ∧ (runnable_ids current tasks = [] → yield_coop current tasks = current) := by
  have hids := runnable_ids_sorted current tasks hsorted
  have hgt : (runnable_gt current tasks).Pairwise (· < ·) := hids.filter _
  refine ⟨?_, find_next_aux_none current tasks, ?_, ?_, ?_⟩
  · intro i
    constructor
    · intro hi
      obtain ⟨p, hp, hfst⟩ := List.mem_map.mp hi
      have hf := List.mem_filter.mp hp
      have hcond : ¬p.1 = current ∧ p.2.is_running = true := of_decide_eq_true hf.2
      refine ⟨by rw [← hfst]; exact hcond.1, p.2, ?_, hcond.2⟩
      rw [← hfst, Prod.mk.eta]
      exact hf.1
    · rintro ⟨hne, st, hmem, hrun⟩
      exact List.mem_map.mpr ⟨(i, st),
        List.mem_filter.mpr ⟨hmem, decide_eq_true ⟨hne, hrun⟩⟩, rfl⟩
  · intro g hg
    exact ⟨head_mem_of_head? hg, head_min_of_sorted hgt hg⟩
  · intro r hr
    exact ⟨head_mem_of_head? hr, head_min_of_sorted hids hr⟩
  · intro hnone
    have hmain := find_next_aux_none current tasks
    rw [runnable_gt, hnone] at hmain
    simp [orElseOpt] at hmain
    unfold yield_coop find_next_running_process
    rw [hmain]

/-- C1 witness: from current id 1 among running tasks 0, 1, 3 and sleeping
task 2, the scheduler picks 3; with no other runnable task, `yield_coop`
keeps `CURRENT_ID` at 1; from current id 3 it wraps around to 0. -/
theorem yield_coop_picks_next_runnable_witness :
    find_next_running_process 1
      [(0, RunState.running), (1, RunState.running), (2, RunState.sleeping 5),
       (3, RunState.running)] = some 3
    ∧ yield_coop 1 [(1, RunState.running), (2, RunState.sleeping 5)] = 1
    ∧ find_next_running_process 3
      [(0, RunState.running), (1, RunState.running), (2, RunState.sleeping 5),
       (3, RunState.running)] = some 0 :=
  ⟨((yield_coop_picks_next_runnable 1
      [(0, RunState.running), (1, RunState.running), (2, RunState.sleeping 5),
       (3, RunState.running)] (by decide)).2.1).trans (by decide),
   (yield_coop_picks_next_runnable 1 [(1, RunState.running), (2, RunState.sleeping 5)]
      (by decide)).2.2.2.2 (by decide),
   ((yield_coop_picks_next_runnable 3
      [(0, RunState.running), (1, RunState.running), (2, RunState.sleeping 5),
       (3, RunState.running)] (by decide)).2.1).trans (by decide)⟩

end ImmDos
